import Mathlib

/-!
Shallow embedding of the alice store extension API
(`src/include/alice/store_api.hpp`): the default template customization
points that a command shell uses to manage heterogeneous store types.

Modelling conventions:
- a C++ function template over type parameters becomes a Lean function
  taking those types as explicit `Type` arguments;
- a C++ function that may throw is embedded with result type
  `Except CppError α`; `throw std::runtime_error(msg)` becomes
  `Except.error (CppError.runtimeError msg)`;
- the mutable `command&` reference parameter of the capability queries is
  embedded by state passing: the query returns its boolean result together
  with the (possibly updated) command context;
- an `std::ostream&` sink is embedded as the string accumulated in it so
  far; writing appends to that string (`std::endl` writes the line
  terminator `"\n"`);
- `nlohmann::json` is embedded as an inductive `Json` type;
  `nlohmann::json({})` constructs the empty JSON object (empty
  initializer list), i.e. `Json.obj []`.
-/

set_option linter.unusedVariables false

namespace alice

/-- A C++ exception value; the defaults only ever throw
`std::runtime_error` with a message. -/
inductive CppError where
  | runtimeError (msg : String)
  deriving DecidableEq, Repr

/-- The external `command` context (declared in `command.hpp`, outside this
core): it carries the custom options a capability query may register and
the option values parsed from the command line. -/
structure Command where
  options : List String
  optionValues : List (String × String)
  deriving DecidableEq, Repr

/-- Pointwise equivalence of two command contexts (same registered options
and same parsed option values). -/
def Command.equiv (c1 c2 : Command) : Prop :=
  c1.options = c2.options ∧ c1.optionValues = c2.optionValues

instance (c1 c2 : Command) : Decidable (Command.equiv c1 c2) := by
  unfold Command.equiv; infer_instance

/-- An output stream, embedded as the output accumulated in it. -/
abbrev Ostream := String

/-- The line terminator written by `std::endl`. -/
def endl : String := "\n"

/-- A JSON value, embedding `nlohmann::json`. -/
inductive Json where
  | null
  | boolean (b : Bool)
  | num (n : Int)
  | str (s : String)
  | arr (elements : List Json)
  | obj (entries : List (String × Json))

/-- The message of the failure thrown by every unimplemented default
action: `throw std::runtime_error( "[e] unimplemented function" )`. -/
def unimplementedMsg : String := "[e] unimplemented function"

/-- Descriptor for a store type (`store_info` specialization): five
`static constexpr const char*` fields. -/
structure StoreInfo where
  key : String
  option : String
  mnemonic : String
  name : String
  name_plural : String
  deriving DecidableEq, Repr

/-- Default `to_string`: `(void)element; return "";`. -/
def to_string (StoreType : Type) (element : StoreType) :
    Except CppError String :=
  Except.ok ""

/-- Default `print`: `(void)element; out << std::endl;`. -/
def print (StoreType : Type) (out : Ostream) (element : StoreType) :
    Except CppError Ostream :=
  Except.ok (out ++ endl)

/-- Default `print_statistics`: `(void)element; out << std::endl;`. -/
def print_statistics (StoreType : Type) (out : Ostream) (element : StoreType) :
    Except CppError Ostream :=
  Except.ok (out ++ endl)

/-- Default `log_statistics`: `(void)element; return nlohmann::json({});`
(the empty initializer list constructs an empty JSON object). -/
def log_statistics (StoreType : Type) (element : StoreType) :
    Except CppError Json :=
  Except.ok (Json.obj [])

/-- Default `can_read`: `(void)cmd; return false;` — the mutable command
reference is returned untouched. -/
def can_read (StoreType Tag : Type) (cmd : Command) : Bool × Command :=
  (false, cmd)

/-- Default `read`: throws `"[e] unimplemented function"`. -/
def read (StoreType Tag : Type) (filename : String) (cmd : Command) :
    Except CppError StoreType :=
  Except.error (CppError.runtimeError unimplementedMsg)

/-- Default `can_write`: `(void)cmd; return false;` — the mutable command
reference is returned untouched. -/
def can_write (StoreType Tag : Type) (cmd : Command) : Bool × Command :=
  (false, cmd)

/-- Default `write`: throws `"[e] unimplemented function"`. -/
def write (StoreType Tag : Type) (element : StoreType) (filename : String)
    (cmd : Command) : Except CppError Unit :=
  Except.error (CppError.runtimeError unimplementedMsg)

/-- Default `can_convert`: argument-free, `return false;`. -/
def can_convert (SourceStoreType DestStoreType : Type) : Bool :=
  false

/-- Default `convert`: throws `"[e] unimplemented function"`. -/
def convert (SourceStoreType DestStoreType : Type)
    (element : SourceStoreType) : Except CppError DestStoreType :=
  Except.error (CppError.runtimeError unimplementedMsg)

/-- Helper: all strings in a list are pairwise distinct. -/
def allDistinct : List String → Bool
  | [] => true
  | x :: xs => !(xs.contains x) && allDistinct xs

/-- Modelled from the spec: the validity condition on the descriptors of
the store types registered with one shell instance (the `cli` composition
is not part of this core). Following the spec: every descriptor's five
fields are non-empty, the mnemonic is never the reserved letter `n` or
`v`, and `key` and `mnemonic` are unique across all registered types. -/
def validRegistration (infos : List StoreInfo) : Bool :=
  infos.all (fun i =>
    i.key != "" && i.option != "" && i.mnemonic != "" &&
    i.name != "" && i.name_plural != "" &&
    i.mnemonic != "n" && i.mnemonic != "v") &&
  allDistinct (infos.map (fun i => i.key)) &&
  allDistinct (infos.map (fun i => i.mnemonic))

theorem allDistinct_pairwise :
    ∀ l : List String, allDistinct l = true → l.Pairwise (· ≠ ·) := by
  intro l
  induction l with
  | nil => intro; exact List.Pairwise.nil
  | cons x xs ih =>
    intro h
    simp only [allDistinct, Bool.and_eq_true, Bool.not_eq_true'] at h
    refine List.Pairwise.cons ?_ (ih h.2)
    intro y hy hxy
    subst hxy
    exact absurd hy (by simpa using h.1)

end alice

namespace alice

/-- C1: for every store type and format tag with unmodified defaults, the
default `can_read` returns `false` for every command context, and the
default `read` raises the unimplemented-operation failure for any filename
and command context, never returning a store value. -/
theorem default_can_read_false_and_read_unimplemented
    (StoreType Tag : Type) (cmd : Command) (filename : String)
    (cmd' : Command) :
    (can_read StoreType Tag cmd).1 = false ∧
    read StoreType Tag filename cmd' =
      Except.error (CppError.runtimeError "[e] unimplemented function") ∧
    ∀ v : StoreType, read StoreType Tag filename cmd' ≠ Except.ok v := by
  refine ⟨rfl, rfl, ?_⟩
  intro v h
  simp [read] at h

/-- C2: for every store type and format tag with unmodified defaults, the
default `can_write` returns `false` for every command context, and the
default `write` raises the unimplemented-operation failure for any
element, filename and command context. -/
theorem default_can_write_false_and_write_unimplemented
    (StoreType Tag : Type) (cmd : Command) (element : StoreType)
    (filename : String) (cmd' : Command) :
    (can_write StoreType Tag cmd).1 = false ∧
    write StoreType Tag element filename cmd' =
      Except.error (CppError.runtimeError "[e] unimplemented function") :=
  ⟨rfl, rfl⟩

/-- C3: for every pair of source and destination store types with
unmodified defaults, the argument-free `can_convert` returns `false`, and
the default `convert` raises the unimplemented-operation failure on any
source element, never producing a destination value. -/
theorem default_can_convert_false_and_convert_unimplemented
    (SourceStoreType DestStoreType : Type) (element : SourceStoreType) :
    can_convert SourceStoreType DestStoreType = false ∧
    convert SourceStoreType DestStoreType element =
      Except.error (CppError.runtimeError "[e] unimplemented function") ∧
    ∀ v : DestStoreType,
      convert SourceStoreType DestStoreType element ≠ Except.ok v := by
  refine ⟨rfl, rfl, ?_⟩
  intro v h
  simp [convert] at h

/-- C5: for every store type with no overrides and every element, the four
default presentation hooks terminate without raising any failure,
producing their empty defaults (`Except.ok` values, never
`Except.error`). -/
theorem default_presentation_hooks_never_fail
    (StoreType : Type) (element : StoreType) (out : Ostream) :
    to_string StoreType element = Except.ok "" ∧
    print StoreType out element = Except.ok (out ++ endl) ∧
    print_statistics StoreType out element = Except.ok (out ++ endl) ∧
    log_statistics StoreType element = Except.ok (Json.obj []) :=
  ⟨rfl, rfl, rfl, rfl⟩

/-- C6: for every store type with no override and every element, the
default `to_string` (describe) hook returns the empty string. -/
theorem default_to_string_empty (StoreType : Type) (element : StoreType) :
    to_string StoreType element = Except.ok "" :=
  rfl

/-- C7: for every store type with no overrides and every element, the
default `print` and the default `print_statistics` each write exactly one
line terminator to the given output sink and nothing else: the sink after
the call is the sink before with exactly `"\n"` appended. -/
theorem default_print_writes_one_line_terminator
    (StoreType : Type) (element : StoreType) (out : Ostream) :
    print StoreType out element = Except.ok (out ++ "\n") ∧
    print_statistics StoreType out element = Except.ok (out ++ "\n") :=
  ⟨rfl, rfl⟩

/-- C8: for every store type with no override and every element, the
default `log_statistics` hook returns an empty structured record: a JSON
object with no key/value entries. -/
theorem default_log_statistics_empty_record
    (StoreType : Type) (element : StoreType) :
    log_statistics StoreType element = Except.ok (Json.obj []) ∧
    ∀ entries : List (String × Json),
      log_statistics StoreType element = Except.ok (Json.obj entries) →
      entries = [] := by
  refine ⟨rfl, ?_⟩
  intro entries h
  simpa [log_statistics] using h

/-- C9: the default `can_read` capability query is deterministic and
idempotent: on equivalent command contexts it yields the same boolean, and
it has no effect on any state other than the command context it is passed
(in fact it returns even that context unchanged). -/
theorem default_can_read_deterministic
    (StoreType Tag : Type) (c1 c2 : Command) (h : Command.equiv c1 c2) :
    (can_read StoreType Tag c1).1 = (can_read StoreType Tag c2).1 ∧
    (can_read StoreType Tag c1).2 = c1 ∧
    (can_read StoreType Tag c2).2 = c2 :=
  ⟨rfl, rfl, rfl⟩

/-- Witness for C9 at a concrete pair of equivalent contexts. -/
theorem default_can_read_deterministic_witness :
    Command.equiv ⟨["opt"], []⟩ ⟨["opt"], []⟩ ∧
    ((can_read Nat Unit ⟨["opt"], []⟩).1 =
        (can_read Nat Unit ⟨["opt"], []⟩).1 ∧
      (can_read Nat Unit ⟨["opt"], []⟩).2 = ⟨["opt"], []⟩ ∧
      (can_read Nat Unit ⟨["opt"], []⟩).2 = ⟨["opt"], []⟩) :=
  ⟨⟨rfl, rfl⟩,
    default_can_read_deterministic Nat Unit ⟨["opt"], []⟩ ⟨["opt"], []⟩
      ⟨rfl, rfl⟩⟩

/-- C10: the default `can_read` and `can_write` leave the mutable command
context they are passed completely unchanged: no option is registered and
no field is mutated. -/
theorem default_capability_queries_preserve_command
    (StoreType Tag : Type) (cmd : Command) :
    (can_read StoreType Tag cmd).2 = cmd ∧
    (can_write StoreType Tag cmd).2 = cmd :=
  ⟨rfl, rfl⟩

/-- C4: if the descriptors registered with a shell instance pass the
registration validity condition, then every descriptor's five fields are
non-empty, its mnemonic is neither `n` nor `v`, and the keys and the
mnemonics are pairwise distinct across all registered store types. -/
theorem registered_descriptors_valid (infos : List StoreInfo)
    (h : validRegistration infos = true) :
    (∀ i ∈ infos,
      i.key ≠ "" ∧ i.option ≠ "" ∧ i.mnemonic ≠ "" ∧
      i.name ≠ "" ∧ i.name_plural ≠ "" ∧
      i.mnemonic ≠ "n" ∧ i.mnemonic ≠ "v") ∧
    (infos.map (fun i => i.key)).Pairwise (· ≠ ·) ∧
    (infos.map (fun i => i.mnemonic)).Pairwise (· ≠ ·) := by
  simp only [validRegistration, Bool.and_eq_true, List.all_eq_true] at h
  obtain ⟨⟨hfields, hkeys⟩, hmnems⟩ := h
  refine ⟨?_, allDistinct_pairwise _ hkeys, allDistinct_pairwise _ hmnems⟩
  intro i hi
  have := hfields i hi
  simp only [Bool.and_eq_true, bne_iff_ne, ne_eq] at this
  exact ⟨this.1.1.1.1.1.1, this.1.1.1.1.1.2, this.1.1.1.1.2,
    this.1.1.1.2, this.1.1.2, this.1.2, this.2⟩

/-- Witness for C4 at a concrete two-type registration. -/
theorem registered_descriptors_valid_witness :
    validRegistration
      [⟨"t1", "t1", "t", "thing", "things"⟩,
       ⟨"t2", "t2", "u", "other", "others"⟩] = true ∧
    ((∀ i ∈ ([⟨"t1", "t1", "t", "thing", "things"⟩,
              ⟨"t2", "t2", "u", "other", "others"⟩] : List StoreInfo),
        i.key ≠ "" ∧ i.option ≠ "" ∧ i.mnemonic ≠ "" ∧
        i.name ≠ "" ∧ i.name_plural ≠ "" ∧
        i.mnemonic ≠ "n" ∧ i.mnemonic ≠ "v") ∧
      (([⟨"t1", "t1", "t", "thing", "things"⟩,
         ⟨"t2", "t2", "u", "other", "others"⟩] : List StoreInfo).map
          (fun i => i.key)).Pairwise (· ≠ ·) ∧
      (([⟨"t1", "t1", "t", "thing", "things"⟩,
         ⟨"t2", "t2", "u", "other", "others"⟩] : List StoreInfo).map
          (fun i => i.mnemonic)).Pairwise (· ≠ ·)) :=
  ⟨by decide, registered_descriptors_valid _ (by decide)⟩

end alice
